import Mathlib

/-!
Shallow embedding of the in-browser-llm-poc repository (Next.js pages that
load a transformers.js text-generation pipeline and display one generation
result).  JavaScript runtime values are modelled by the inductive `JSValue`;
`JSON.stringify` and `String(...)` conversions are modelled faithfully for
that value space.  The event handlers of each page are modelled as pure state
transformers over the React state of the page, with the outcomes of awaited
library calls passed in as explicit `Except` oracles.
-/

/-- Model of a JavaScript runtime value.  Arrays are modelled as pure element
lists (no extra own properties) and objects as association lists with
distinct keys.  `errObj m` models an `Error` instance whose `.message` is
`m`; `bigint` models a BigInt primitive (on which `JSON.stringify` throws). -/
inductive JSValue : Type
  | undefined
  | null
  | bool (b : Bool)
  | num (n : Int)
  | str (s : String)
  | bigint (n : Int)
  | arr (elems : List JSValue)
  | obj (fields : List (String × JSValue))
  | errObj (msg : String)
deriving Repr

/-- Whether the value is a JS string (`typeof v === "string"`). -/
def JSValue.isStr : JSValue → Bool
  | .str _ => true
  | _ => false

/-- Whether `typeof v === "object" && v !== null` holds. -/
def isObjNonNull : JSValue → Bool
  | .arr _ => true
  | .obj _ => true
  | .errObj _ => true
  | _ => false

/-- First-match association-list lookup (modelled objects have distinct keys). -/
def lookupField : List (String × JSValue) → String → JSValue
  | [], _ => .undefined
  | (k, v) :: rest, key => if k = key then v else lookupField rest key

/-- Association-list key membership. -/
def hasField : List (String × JSValue) → String → Bool
  | [], _ => false
  | (k, _) :: rest, key => k = key || hasField rest key

/-- The JS `in` operator on the values this code applies it to (it is only
reached behind an `isObjNonNull` guard in the source).  `Error` instances
expose their `message` own property; true arrays have no string-keyed own
properties in this model. -/
def hasProp : JSValue → String → Bool
  | .obj fs, k => hasField fs k
  | .errObj _, k => k = "message"
  | _, _ => false

/-- Property access `v[k]` for non-nullish `v` (never throws there; absent
properties give `undefined`). -/
def getProp : JSValue → String → JSValue
  | .obj fs, k => lookupField fs k
  | .errObj m, k => if k = "message" then .str m else .undefined
  | _, _ => .undefined

/-- Index access `v[i]` for non-nullish `v`: array element, string character,
or object property named by the decimal numeral; `undefined` otherwise. -/
def idx (v : JSValue) (i : Nat) : JSValue :=
  match v with
  | .arr xs => xs.getD i .undefined
  | .str s => match s.data.get? i with
      | some c => .str (String.singleton c)
      | none => .undefined
  | .obj fs => lookupField fs (Nat.repr i)
  | _ => .undefined

mutual

/-- The JS `String(v)` / template-literal conversion for this value space.
Arrays convert by comma-joining their elements (nullish elements become the
empty string); plain objects give `[object Object]`; `Error` instances give
`Error: msg` (or `Error` when the message is empty). -/
def jsToString : JSValue → String
  | .undefined => "undefined"
  | .null => "null"
  | .bool b => if b then "true" else "false"
  | .num n => n.repr
  | .str s => s
  | .bigint n => n.repr
  | .arr xs => arrJoin xs
  | .obj _ => "[object Object]"
  | .errObj m => if m = "" then "Error" else "Error: " ++ m

/-- Comma-join used by `Array.prototype.toString`. -/
def arrJoin : List JSValue → String
  | [] => ""
  | x :: xs =>
    let hd := match x with
      | .undefined => ""
      | .null => ""
      | v => jsToString v
    match xs with
    | [] => hd
    | _ :: _ => hd ++ "," ++ arrJoin xs

end

/-- Outcome of a call to `JSON.stringify`: a string, the value `undefined`
(for a top-level non-serializable value such as `undefined`), or a thrown
`TypeError` (for a BigInt anywhere in the value). -/
inductive SRes : Type
  | ok (s : String)
  | undefined
  | thrown
deriving Repr, DecidableEq

/-- Escape one character for a JSON string literal. -/
def jsonEscapeChar (c : Char) : String :=
  if c = '"' then "\\\""
  else if c = '\\' then "\\\\"
  else if c = '\n' then "\\n"
  else if c = '\r' then "\\r"
  else if c = '\t' then "\\t"
  else String.singleton c

/-- Quote a string as a JSON string literal. -/
def jsonQuote (s : String) : String :=
  "\"" ++ String.join (s.data.map jsonEscapeChar) ++ "\""

/-- Two-space indentation prefix at depth `d` (for `JSON.stringify(v, null, 2)`). -/
def indentOf (d : Nat) : String :=
  String.join (List.replicate d "  ")

/-- Assemble a serialized array/object from its already-serialized parts,
compact (`p = false`) or two-space pretty-printed (`p = true`). -/
def wrapSeq (p : Bool) (d : Nat) (opening closing : String) (parts : List String) : String :=
  match parts with
  | [] => opening ++ closing
  | _ :: _ =>
    if p then
      opening ++ "\n" ++
        String.intercalate ",\n" (parts.map (fun s => indentOf (d + 1) ++ s)) ++
        "\n" ++ indentOf d ++ closing
    else
      opening ++ String.intercalate "," parts ++ closing

mutual

/-- The `JSON.stringify` serialization of one value at depth `d` (`p` selects
the two-space-indent variant).  BigInt values throw; `undefined` serializes
to nothing; `Error` instances have no enumerable own properties and so
serialize as an empty object. -/
def serV (p : Bool) (d : Nat) : JSValue → SRes
  | .undefined => .undefined
  | .null => .ok "null"
  | .bool b => .ok (if b then "true" else "false")
  | .num n => .ok n.repr
  | .str s => .ok (jsonQuote s)
  | .bigint _ => .thrown
  | .arr xs =>
    match serArr p (d + 1) xs with
    | none => .thrown
    | some parts => .ok (wrapSeq p d "[" "]" parts)
  | .obj fs =>
    match serObj p (d + 1) fs with
    | none => .thrown
    | some parts => .ok (wrapSeq p d "\x7b" "\x7d" parts)
  | .errObj _ => .ok "\x7b\x7d"

/-- Serialize array elements (non-serializable elements become `null`;
a thrown serialization propagates as `none`). -/
def serArr (p : Bool) (d : Nat) : List JSValue → Option (List String)
  | [] => some []
  | x :: xs =>
    let hd := match serV p d x with
      | .thrown => none
      | .undefined => some "null"
      | .ok s => some s
    match hd, serArr p d xs with
    | some h, some t => some (h :: t)
    | _, _ => none

/-- Serialize object fields (fields with non-serializable values are skipped;
a thrown serialization propagates as `none`). -/
def serObj (p : Bool) (d : Nat) : List (String × JSValue) → Option (List String)
  | [] => some []
  | (k, v) :: fs =>
    match serV p d v with
    | .thrown => none
    | .undefined => serObj p d fs
    | .ok s =>
      match serObj p d fs with
      | some t => some ((jsonQuote k ++ (if p then ": " else ":") ++ s) :: t)
      | none => none

end

/-- `JSON.stringify(v)` (compact form, as used in part_003 and src/app/page.tsx). -/
def jsonStringifyC (v : JSValue) : SRes := serV false 0 v

/-- `JSON.stringify(v, null, 2)` (as used in part_000 and part_001). -/
def jsonStringify2 (v : JSValue) : SRes := serV true 0 v

/-- The `getErrorMessage` helper shared by part_000, part_001 and the
llama2.c-stories15M page: the `.message` of an `Error` instance, otherwise
`String(err)`. -/
def getErrorMessage : JSValue → String
  | .errObj m => m
  | v => jsToString v

/-- The error-to-message conversion of src/app/page.tsx and part_003:
`e instanceof Error ? e.message : typeof e === "string" ? e : JSON.stringify(e)`.
The `JSON.stringify` call itself can throw (modelled by `.error ()`), and can
evaluate to `undefined`. -/
def messageOf (e : JSValue) : Except Unit JSValue :=
  match e with
  | .errObj m => .ok (.str m)
  | .str s => .ok (.str s)
  | v =>
    match jsonStringifyC v with
    | .ok s => .ok (.str s)
    | .undefined => .ok .undefined
    | .thrown => .error ()

/-- The optional chain `result?.[0]?.generated_text` of the shared SmolLM2
`extractText` helper (part_000 lines 27-36 and part_001 lines 21-33). -/
def chainSmol (result : JSValue) : JSValue :=
  match result with
  | .undefined => .undefined
  | .null => .undefined
  | v =>
    match idx v 0 with
    | .undefined => .undefined
    | .null => .undefined
    | w => getProp w "generated_text"

/-- The `extractText` helper of the two SmolLM2 pages (part_000 lines 27-36,
part_001 lines 21-33): return `result?.[0]?.generated_text` when it is a
string, otherwise `JSON.stringify(result, null, 2)` (which is `undefined` for
a top-level `undefined`), falling back to `String(result)` when the
stringification throws.  The function itself never throws. -/
def extractTextSmol (result : JSValue) : JSValue :=
  match chainSmol result with
  | .str s => .str s
  | _ =>
    match jsonStringify2 result with
    | .ok s => .str s
    | .undefined => .undefined
    | .thrown => .str (jsToString result)

/-- The `getGeneratedText` closure of the part_003 `extractText` (lines 30-35):
`typeof obj === "object" && obj !== null && "generated_text" in obj`
guards the property access, otherwise `undefined`. -/
def getGeneratedText (o : JSValue) : JSValue :=
  if isObjNonNull o && hasProp o "generated_text" then getProp o "generated_text"
  else .undefined

/-- The `isChatMessage` guard of part_003 (lines 13-22). -/
def isChatMessage (x : JSValue) : Bool :=
  isObjNonNull x && hasProp x "role" && hasProp x "content"
    && (getProp x "role").isStr && (getProp x "content").isStr

/-- A `return JSON.stringify(v)` statement: a string result is returned, a
top-level-nonserializable value returns `undefined`, a thrown `TypeError`
propagates. -/
def stringifyRet (v : JSValue) : Except Unit JSValue :=
  match jsonStringifyC v with
  | .ok s => .ok (.str s)
  | .undefined => .ok .undefined
  | .thrown => .error ()

/-- The tail of the part_003 `extractText` (lines 51-61): the single-object
block followed by the string/stringify fallback.  Reached when the leading
array block falls through. -/
def extractText3Rest (result : JSValue) : Except Unit JSValue :=
  let gt := getGeneratedText result
  if gt.isStr then .ok gt
  else
    match gt with
    | .arr (g :: gs) =>
      let last := (g :: gs).getLast (List.cons_ne_nil g gs)
      if isChatMessage last then .ok (getProp last "content")
      else stringifyRet (.arr (g :: gs))
    | _ => if result.isStr then .ok result else stringifyRet result

/-- The `extractText` helper of part_003 (lines 24-62): the leading
non-empty-array block (string `generated_text`, chat-style array, or
`JSON.stringify` of the `generated_text` array), falling through to
`extractText3Rest`.  `JSON.stringify` throwing propagates as `.error ()`. -/
def extractText3 (result : JSValue) : Except Unit JSValue :=
  match result with
  | .arr (x :: _) =>
    let gt := getGeneratedText x
    if gt.isStr then .ok gt
    else
      match gt with
      | .arr (g :: gs) =>
        let last := (g :: gs).getLast (List.cons_ne_nil g gs)
        if isChatMessage last then .ok (getProp last "content")
        else stringifyRet (.arr (g :: gs))
      | _ => extractText3Rest result
  | _ => extractText3Rest result

/-- Rule "the first element carries a string-valued generated_text" from the
claim wording about the part_003 helper. -/
def ruleStr (v : JSValue) : Option String :=
  match getGeneratedText v with
  | .str s => some s
  | _ => none

/-- Rule "the generated_text is a non-empty array whose last element is a
chat message, in which case the content of the last message is returned" from the
claim wording. -/
def ruleChat (v : JSValue) : Option JSValue :=
  match getGeneratedText v with
  | .arr (g :: gs) =>
    let last := (g :: gs).getLast (List.cons_ne_nil g gs)
    if isChatMessage last then some (getProp last "content") else none
  | _ => none

/-- The claimed rules applied to the result as a single object, then the
string identity, then `JSON.stringify` of the result. -/
def claimedTail (result : JSValue) : Except Unit JSValue :=
  match ruleStr result with
  | some s => .ok (.str s)
  | none =>
    match ruleChat result with
    | some c => .ok c
    | none => if result.isStr then .ok result else stringifyRet result

/-- Modelled from the claim wording (not the source): the text-extraction
case analysis as the specification states it — the two positive rules on an
first element of an array, the same two rules on a single object, the identity
on strings, and `JSON.stringify` of the RESULT in every remaining case. -/
def extractTextClaimed (result : JSValue) : Except Unit JSValue :=
  match result with
  | .arr (x :: _) =>
    match ruleStr x with
    | some s => .ok (.str s)
    | none =>
      match ruleChat x with
      | some c => .ok c
      | none => claimedTail result
  | _ => claimedTail result

/-- The amended rule for a `generated_text` that is a non-empty array: the
content of the last message when it ends in a chat message, otherwise
`JSON.stringify` of that `generated_text` array itself (not of the result). -/
def ruleChatOrJson (v : JSValue) : Option (Except Unit JSValue) :=
  match getGeneratedText v with
  | .arr (g :: gs) =>
    let last := (g :: gs).getLast (List.cons_ne_nil g gs)
    if isChatMessage last then some (.ok (getProp last "content"))
    else some (stringifyRet (.arr (g :: gs)))
  | _ => none

/-- The amended rules applied to the result as a single object, then the
string identity, then `JSON.stringify` of the result. -/
def amendedTail (result : JSValue) : Except Unit JSValue :=
  match ruleStr result with
  | some s => .ok (.str s)
  | none =>
    match ruleChatOrJson result with
    | some r => r
    | none => if result.isStr then .ok result else stringifyRet result

/-- The amended case analysis: as the claim states it, except that a
non-empty-array `generated_text` whose last element is not a chat message
yields `JSON.stringify` of that array rather than of the result. -/
def extractTextAmended (result : JSValue) : Except Unit JSValue :=
  match result with
  | .arr (x :: _) =>
    match ruleStr x with
    | some s => .ok (.str s)
    | none =>
      match ruleChatOrJson x with
      | some r => r
      | none => amendedTail result
  | _ => amendedTail result

/-- Observer used to state inequalities of extraction results without
requiring decidable equality on `JSValue`. -/
def resShow : Except Unit JSValue → String
  | .ok (.str s) => "str:" ++ s
  | .ok v => "val:" ++ jsToString v
  | .error _ => "threw"

/-- An opaque pipeline handle returned by the library, with the optional
`dispose` method of the part_000 `DisposablePipeline` type modelled by a flag. -/
structure Pipe where
  pid : Nat
  hasDispose : Bool
deriving Repr

/-- The status enum of the disposable SmolLM2 page (part_000 lines 39-41). -/
inductive Status0 : Type
  | idle
  | loading
  | running
  | error
deriving Repr, DecidableEq

/-- React state of the disposable SmolLM2 page (part_000): the status enum,
the output, and the `pipelineRef` handle.  The prompt is carried unchanged by
every modelled handler and is omitted. -/
structure St0 where
  status : Status0
  output : JSValue
  pipelineRef : Option Pipe

/-- Result of one `runOnceAndFree` execution on the disposable page: the
final state, the sequence of values assigned to `status`, the pids on which
`dispose()` was invoked, and the value thrown out of the handler (if any). -/
structure Run0 where
  st : St0
  statusTrace : List Status0
  disposedIds : List Nat
  escaped : Option JSValue

/-- `loadPipeline` of part_000 (lines 51-74): return the cached handle, or
await the library load (outcome `loadO`), storing the new handle in the ref. -/
def loadPipeline000 (st : St0) (loadO : Except JSValue Pipe) :
    Except JSValue (Pipe × St0) :=
  match st.pipelineRef with
  | some p => .ok (p, st)
  | none =>
    match loadO with
    | .ok p => .ok (p, { st with pipelineRef := some p })
    | .error e => .error e

/-- `disposePipeline` of part_000 (lines 76-87): clear the ref and, when the
held handle has a `dispose` method, invoke it, swallowing its errors.  The
returned list records the pids on which `dispose()` was invoked. -/
def disposePipeline000 (st : St0) : St0 × List Nat :=
  let st' := { st with pipelineRef := none }
  match st.pipelineRef with
  | some q => if q.hasDispose then (st', [q.pid]) else (st', [])
  | none => (st', [])

/-- `runOnceAndFree` of part_000 (lines 89-113): set status loading, clear
the output, load (or reuse) the pipeline, set status running, generate, set
the output and status idle; on any throw set status error and a failure
message; in every case dispose the pipeline afterwards.  `dispO` is the
outcome of the `dispose()` call (always swallowed). -/
def runOnceAndFree000 (st : St0) (loadO : Except JSValue Pipe)
    (genO : Except JSValue JSValue) (dispO : Except JSValue Unit) : Run0 :=
  let _ := dispO
  let s1 : St0 := { st with status := .loading, output := .str "" }
  match loadPipeline000 s1 loadO with
  | .ok (_, s2) =>
    let s3 : St0 := { s2 with status := .running }
    match genO with
    | .ok result =>
      let s4 : St0 := { s3 with output := extractTextSmol result, status := .idle }
      let d := disposePipeline000 s4
      ⟨d.1, [.loading, .running, .idle], d.2, none⟩
    | .error e =>
      let s4 : St0 :=
        { s3 with status := .error,
                  output := .str ("Generation failed.\n\n" ++ getErrorMessage e) }
      let d := disposePipeline000 s4
      ⟨d.1, [.loading, .running, .error], d.2, none⟩
  | .error e =>
    let s2 : St0 :=
      { s1 with status := .error,
                output := .str ("Generation failed.\n\n" ++ getErrorMessage e) }
    let d := disposePipeline000 s2
    ⟨d.1, [.loading, .error], d.2, none⟩

/-- The pipeline handle held by the disposable page at dispose time: the
cached one, or the freshly loaded one when the load succeeded. -/
def heldPipe (st : St0) (loadO : Except JSValue Pipe) : Option Pipe :=
  match st.pipelineRef with
  | some p => some p
  | none => loadO.toOption

/-- The Generate button of the disposable page is disabled exactly when
`status === "loading" || status === "running"` (part_000 line 152). -/
def disabled000 (st : St0) : Bool :=
  decide (st.status = .loading) || decide (st.status = .running)

/-- React state of the min-footprint SmolLM2 page (part_001). -/
structure St1 where
  ready : Bool
  loadingModel : Bool
  generating : Bool
  output : JSValue
  generator : Option Pipe

/-- `loadModel` of part_001 (lines 49-81): set the loading flag, clear the
output, await the library load; on success store the generator and set
ready, on failure show a failure message and clear generator and ready; in
every case clear the loading flag. -/
def loadModel001 (st : St1) (loadO : Except JSValue Pipe) : St1 :=
  let s1 : St1 := { st with loadingModel := true, output := .str "" }
  match loadO with
  | .ok p => { s1 with generator := some p, ready := true, loadingModel := false }
  | .error e =>
    { s1 with output := .str ("Failed to load model.\n\n" ++ getErrorMessage e),
              ready := false, generator := none, loadingModel := false }

/-- Result of one `runOnceAndFree` execution on the min-footprint page. -/
structure Run1 where
  st : St1
  loadCalled : Bool
  invoked : Bool

/-- `runOnceAndFree` of part_001 (lines 90-121).  The `generator` name inside
the handler is the closure-captured render-time value `st.generator`: when it
is null the handler awaits `loadModel` and then re-checks the SAME captured
value, so it returns without invoking the pipeline; otherwise it generates
and the `finally` block clears the generating flag, the generator and the
ready flag. -/
def runOnceAndFree001 (st : St1) (loadO : Except JSValue Pipe)
    (genO : Except JSValue JSValue) : Run1 :=
  match st.generator with
  | none =>
    let st' := loadModel001 st loadO
    ⟨st', true, false⟩
  | some _ =>
    let s1 : St1 := { st with generating := true, output := .str "" }
    let s2 : St1 :=
      match genO with
      | .ok result => { s1 with output := extractTextSmol result }
      | .error e =>
        { s1 with output := .str ("Generation failed.\n\n" ++ getErrorMessage e) }
    ⟨{ s2 with generating := false, generator := none, ready := false }, false, true⟩

/-- The Generate button of the min-footprint page is disabled exactly when
`generating || loadingModel` (part_001 line 158). -/
def disabled001 (st : St1) : Bool :=
  st.generating || st.loadingModel

/-- React state of the llama2.c-stories15M page, plus the phase of the
mount-effect model load (used to define reachability). -/
structure StL where
  ready : Bool
  loading : Bool
  generating : Bool
  output : JSValue
  generator : Option Pipe
  phase : Nat

/-- Load phases of the llama2 page: 0 = effect not yet run, 1 = load in
flight, 2 = load settled. -/
def lPhaseNotStarted : Nat := 0

/-- In-flight load phase of the llama2 page. -/
def lPhaseInFlight : Nat := 1

/-- Settled load phase of the llama2 page. -/
def lPhaseDone : Nat := 2

/-- The Generate button of the llama2 page is disabled exactly when
`!ready || generating` (page.tsx line 119). -/
def disabledL (s : StL) : Bool :=
  !s.ready || s.generating

/-- A thrown `TypeError` from reading index 0 of a nullish value (its exact
message text is engine-dependent and never inspected by a claim). -/
def typeErrorRead0 : JSValue :=
  .errObj "Cannot read properties of a nullish value"

/-- The expression `result[0]?.generated_text ?? ""` of the llama2 page
(page.tsx line 78): indexing a nullish result throws; a nullish chain value
is defaulted to the empty string by `??`. -/
def chainLlama (result : JSValue) : Except Unit JSValue :=
  match result with
  | .undefined => .error ()
  | .null => .error ()
  | v =>
    let g : JSValue := match idx v 0 with
      | .undefined => .undefined
      | .null => .undefined
      | w => getProp w "generated_text"
    match g with
    | .undefined => .ok (.str "")
    | .null => .ok (.str "")
    | w => .ok w

/-- Settling of an in-flight generation on the llama2 page (the tail of
`generate` after the await, page.tsx lines 70-83): on resolution set the
output to `result[0]?.generated_text ?? ""` (the chain throwing is caught
like a rejection); on rejection show a failure message; finally clear the
generating flag. -/
def genFinishL (s : StL) (genO : Except JSValue JSValue) : StL :=
  match genO with
  | .ok result =>
    match chainLlama result with
    | .ok v => { s with output := v, generating := false }
    | .error _ =>
      { s with
          output := .str ("Generation failed.\n\n" ++ getErrorMessage typeErrorRead0),
          generating := false }
  | .error e =>
    { s with output := .str ("Generation failed.\n\n" ++ getErrorMessage e),
             generating := false }

/-- `generate` of the llama2 page (page.tsx lines 64-84): a no-op when no
generator is stored; otherwise set the generating flag, clear the output,
and finish as `genFinishL`. -/
def generateL (st : StL) (genO : Except JSValue JSValue) : StL :=
  match st.generator with
  | none => st
  | some _ =>
    genFinishL { st with generating := true, output := .str "" } genO

/-- Completion of the llama2 mount-effect `loadModel` (page.tsx lines 33-56),
in the un-cancelled case: on success store the generator and set ready; on
failure show a failure message; in both cases clear the loading flag. -/
def loadFinishL (s : StL) (o : Except JSValue Pipe) : StL :=
  match o with
  | .ok p =>
    { s with generator := some p, ready := true, loading := false, phase := lPhaseDone }
  | .error e =>
    { s with output := .str ("Failed to load model.\n\n" ++ getErrorMessage e),
             loading := false, phase := lPhaseDone }

/-- Rendered-state transitions of the llama2 page: the mount effect starts
the load once; the load settles; a click on the enabled button (with a
stored generator) starts a generation; an in-flight generation settles. -/
inductive LStep : StL → StL → Prop
  | loadStart (s : StL) :
      s.phase = lPhaseNotStarted →
      LStep s { s with loading := true, output := .str "", phase := lPhaseInFlight }
  | loadSettle (s : StL) (o : Except JSValue Pipe) :
      s.phase = lPhaseInFlight →
      LStep s (loadFinishL s o)
  | genStart (s : StL) (p : Pipe) :
      disabledL s = false →
      s.generator = some p →
      LStep s { s with generating := true, output := .str "" }
  | genSettle (s : StL) (genO : Except JSValue JSValue) :
      s.generating = true →
      LStep s (genFinishL s genO)

/-- Initial rendered state of the llama2 page (useState initializers). -/
def initStL : StL :=
  ⟨false, false, false, .str "", none, lPhaseNotStarted⟩

/-- Reachable rendered states of the llama2 page. -/
inductive ReachL : StL → Prop
  | init : ReachL initStL
  | step {s s' : StL} : ReachL s → LStep s s' → ReachL s'

/-- Shared React state shape of the DistilGPT-2 page (src/app/page.tsx) and
the Phi-3 page (part_003): loading flag, status text, output, whether
`generatorRef.current` is set, and the generating flag. -/
structure StRef where
  isLoadingModel : Bool
  status : String
  output : JSValue
  genSet : Bool
  isGenerating : Bool

/-- `onGenerate` of src/app/page.tsx (lines 91-113) and part_003 (lines
133-155): a no-op without a generator; otherwise set the generating flag and
clear the output; on resolution show the text; on rejection convert the
thrown value with `messageOf` and show `Error: <message>` — unless that
conversion itself throws, in which case the `finally` still clears the flag
but the output is never set and the exception escapes the handler (the
returned flag). -/
def onGenerateRef (st : StRef) (genO : Except JSValue JSValue) : StRef × Bool :=
  match st.genSet with
  | false => (st, false)
  | true =>
    let s1 : StRef := { st with isGenerating := true, output := .str "" }
    match genO with
    | .ok v => ({ s1 with output := v, isGenerating := false }, false)
    | .error e =>
      match messageOf e with
      | .ok m =>
        ({ s1 with output := .str ("Error: " ++ jsToString m), isGenerating := false },
         false)
      | .error _ => ({ s1 with isGenerating := false }, true)

/-- The Generate button of the DistilGPT-2 and Phi-3 pages is disabled
exactly when `isLoadingModel || isGenerating` (page.tsx line 162, part_003
line 207). -/
def disabledRef (st : StRef) : Bool :=
  st.isLoadingModel || st.isGenerating

/-- The status text set by the catch block of the mount-effect `init` of the
DistilGPT-2 and Phi-3 pages (lines 70-78 resp. 112-120): `Error loading
model: <message>`, where the conversion itself may throw. -/
def refInitCatchStatus (e : JSValue) : Except Unit String :=
  match messageOf e with
  | .ok m => .ok ("Error loading model: " ++ jsToString m)
  | .error u => .error u

/-- Whether the `cancelled` flag of a mount effect is already set when the
continuation after the `step`-th awaited call runs.  `cancelAt = some j`
means the effect cleanup ran just before continuation `j`; React runs the
cleanup only after the synchronous effect body (step 0), so `j ≥ 1`. -/
def flagAt (cancelAt : Option Nat) (step : Nat) : Bool :=
  match cancelAt with
  | some j => decide (1 ≤ j) && decide (j ≤ step)
  | none => false

/-- The setter calls executed by the mount-effect `loadModel` of the llama2 page
(page.tsx lines 30-62), each tagged with the continuation step at which it
runs (0 = synchronous body, 1 = after the library import, 2 = after the
pipeline construction).  Every setter is guarded by `if (!cancelled)`. -/
def llamaLoadLog (c : Option Nat) (importOk pipeOk : Bool) : List (Nat × String) :=
  [(0, "setLoading"), (0, "setOutput")] ++
  (if importOk then
    (if pipeOk then
      (if flagAt c 2 then [] else [(2, "setGenerator"), (2, "setReady")]) ++
      (if flagAt c 2 then [] else [(2, "setLoading")])
    else
      (if flagAt c 2 then [] else [(2, "setOutput")]) ++
      (if flagAt c 2 then [] else [(2, "setLoading")]))
  else
    (if flagAt c 1 then [] else [(1, "setOutput")]) ++
    (if flagAt c 1 then [] else [(1, "setLoading")]))

/-- The setter calls executed by the mount-effect `init` of the DistilGPT-2
and Phi-3 pages (page.tsx lines 27-89, part_003 lines 75-131).  The success
path checks `if (cancelled) return` after each await, but the catch block
`setStatus` and the `finally` block `setIsLoadingModel(false)` calls are not
guarded, and the early `return` itself still runs the `finally`. -/
def refLoadLog (c : Option Nat) (importOk pipeOk : Bool) : List (Nat × String) :=
  [(0, "setIsLoadingModel"), (0, "setStatus")] ++
  (if importOk then
    (if flagAt c 1 then [(1, "setIsLoadingModel")]
    else
      [(1, "setStatus")] ++
      (if pipeOk then
        (if flagAt c 2 then [(2, "setIsLoadingModel")]
        else [(2, "generatorRefAssign"), (2, "setStatus"), (2, "setIsLoadingModel")])
      else [(2, "setStatus"), (2, "setIsLoadingModel")]))
  else [(1, "setStatus"), (1, "setIsLoadingModel")])

/-- The setter calls executed by the mount-effect load of the min-footprint
SmolLM2 page (part_001 lines 49-88): its effect calls `loadModel()` and
neither declares nor checks a `cancelled` flag, so no call is guarded. -/
def minLoadLog (importOk pipeOk : Bool) : List (Nat × String) :=
  [(0, "setLoadingModel"), (0, "setOutput")] ++
  (if importOk then
    (if pipeOk then [(2, "setGenerator"), (2, "setReady"), (2, "setLoadingModel")]
    else [(2, "setOutput"), (2, "setReady"), (2, "setGenerator"), (2, "setLoadingModel")])
  else [(1, "setOutput"), (1, "setReady"), (1, "setGenerator"), (1, "setLoadingModel")])

/-- The names of the setters of a load path that execute at a step where the
cancellation flag is already set. -/
def settersAfterCancel (c : Option Nat) (log : List (Nat × String)) : List String :=
  (log.filter (fun e => flagAt c e.fst)).map Prod.snd

/-- A `pipeline(task, model, options)` call: the task, the model identifier,
and the `device`/`dtype` options actually passed. -/
structure PipelineCall where
  task : String
  model : String
  device : String
  dtype : Option String

/-- The pipeline construction of the disposable SmolLM2 page (part_000
lines 49-70): device fixed to `wasm`, dtype fixed to `q4`, on every load. -/
def loadCall000 : PipelineCall :=
  ⟨"text-generation", "HuggingFaceTB/SmolLM2-135M-Instruct", "wasm", some "q4"⟩

/-- The condition `typeof navigator !== "undefined" && "gpu" in navigator`
of part_001 line 59, over a navigator modelled as an optional property list. -/
def hasWebGPU (nav : Option (List String)) : Bool :=
  match nav with
  | some props => decide ("gpu" ∈ props)
  | none => false

/-- The pipeline construction of the min-footprint SmolLM2 page (part_001
lines 47-70): device `webgpu` when WebGPU is available, `wasm` otherwise,
and no dtype option. -/
def loadCall001 (nav : Option (List String)) : PipelineCall :=
  ⟨"text-generation", "HuggingFaceTB/SmolLM2-135M-Instruct",
   if hasWebGPU nav then "webgpu" else "wasm", none⟩

/-- C7: the disposable SmolLM2 page constructs its pipeline with device
`wasm` and dtype `q4` on every load, while the min-footprint SmolLM2 page
selects device `webgpu` exactly when the navigator object exposes a `gpu`
property and `wasm` otherwise, passing no quantization option. -/
theorem C7_backend_choices :
    loadCall000.device = "wasm" ∧ loadCall000.dtype = some "q4" ∧
    ∀ nav : Option (List String),
      ((loadCall001 nav).device = "webgpu" ↔ ∃ props, nav = some props ∧ "gpu" ∈ props) ∧
      (loadCall001 nav).dtype = none := by
  refine ⟨rfl, rfl, fun nav => ⟨?_, rfl⟩⟩
  cases nav with
  | none => simp [loadCall001, hasWebGPU]
  | some props =>
    by_cases h : "gpu" ∈ props <;> simp [loadCall001, hasWebGPU, h]

/-- C9: when the `generator` state of the min-footprint page is null at click
time, `runOnceAndFree` awaits the on-demand `loadModel` call and then
returns early — the pipeline is not invoked, the generating flag is
untouched, no generation output is produced — because the second null check
re-reads the closure-captured value; a successfully loaded fresh pipeline is
stored in the state but unused. -/
theorem C9_stale_closure (st : St1) (loadO : Except JSValue Pipe)
    (genO : Except JSValue JSValue) (h : st.generator = none) :
    (runOnceAndFree001 st loadO genO).loadCalled = true ∧
    (runOnceAndFree001 st loadO genO).invoked = false ∧
    (runOnceAndFree001 st loadO genO).st.generating = st.generating ∧
    (runOnceAndFree001 st loadO genO).st.generator = loadO.toOption ∧
    (runOnceAndFree001 st loadO genO).st.ready = loadO.isOk ∧
    (runOnceAndFree001 st loadO genO).st.output =
      (match loadO with
        | .ok _ => JSValue.str ""
        | .error e => JSValue.str ("Failed to load model.\n\n" ++ getErrorMessage e)) := by
  cases loadO <;>
    simp [runOnceAndFree001, loadModel001, h, Except.toOption, Except.isOk, Except.toBool]

/-- Witness for C9 at a concrete initial state and a successful load. -/
theorem C9_stale_closure_witness :
    (runOnceAndFree001 ⟨false, false, false, JSValue.str "", none⟩
        (Except.ok ⟨1, true⟩) (Except.ok (JSValue.str "x"))).loadCalled = true ∧
    (runOnceAndFree001 ⟨false, false, false, JSValue.str "", none⟩
        (Except.ok ⟨1, true⟩) (Except.ok (JSValue.str "x"))).invoked = false ∧
    (runOnceAndFree001 ⟨false, false, false, JSValue.str "", none⟩
        (Except.ok ⟨1, true⟩) (Except.ok (JSValue.str "x"))).st.generating = false ∧
    (runOnceAndFree001 ⟨false, false, false, JSValue.str "", none⟩
        (Except.ok ⟨1, true⟩) (Except.ok (JSValue.str "x"))).st.generator = some ⟨1, true⟩ ∧
    (runOnceAndFree001 ⟨false, false, false, JSValue.str "", none⟩
        (Except.ok ⟨1, true⟩) (Except.ok (JSValue.str "x"))).st.ready = true ∧
    (runOnceAndFree001 ⟨false, false, false, JSValue.str "", none⟩
        (Except.ok ⟨1, true⟩) (Except.ok (JSValue.str "x"))).st.output = JSValue.str "" :=
  C9_stale_closure ⟨false, false, false, JSValue.str "", none⟩
    (Except.ok ⟨1, true⟩) (Except.ok (JSValue.str "x")) rfl

/-- A top-level `JSON.stringify` never evaluates to the value `undefined`
except on input `undefined` itself (in this value space). -/
theorem serV_top_ne_undefined (p : Bool) (v : JSValue) (hv : v ≠ JSValue.undefined) :
    serV p 0 v ≠ SRes.undefined := by
  cases v with
  | undefined => exact absurd rfl hv
  | arr xs => simp only [serV]; split <;> simp
  | obj fs => simp only [serV]; split <;> simp
  | _ => simp [serV]

/-- C8 counterexample: on input `undefined` the shared SmolLM2 `extractText`
returns `undefined` — `JSON.stringify(undefined, null, 2)` evaluates to
`undefined` without throwing, so the `String(result)` fallback is not
reached and no string is returned. -/
theorem C8_counterexample :
    extractTextSmol JSValue.undefined = JSValue.undefined ∧
    (extractTextSmol JSValue.undefined).isStr = false :=
  ⟨rfl, rfl⟩

/-- C8 amended: the shared SmolLM2 `extractText` is total and never throws;
it returns a string for every input other than `undefined` (first-element
string, else `JSON.stringify`, else — when the stringification throws —
`String(result)`), and returns the value `undefined` on input `undefined`. -/
theorem C8_total_amended (v : JSValue) :
    extractTextSmol JSValue.undefined = JSValue.undefined ∧
    (v ≠ JSValue.undefined → (extractTextSmol v).isStr = true) ∧
    ((chainSmol v).isStr = false → jsonStringify2 v = SRes.thrown →
      extractTextSmol v = JSValue.str (jsToString v)) := by
  refine ⟨rfl, ?_, ?_⟩
  · intro hv
    cases hc : chainSmol v with
    | str s => simp [extractTextSmol, hc, JSValue.isStr]
    | _ =>
      cases hs : jsonStringify2 v with
      | ok s => simp [extractTextSmol, hc, hs, JSValue.isStr]
      | undefined => exact absurd hs (serV_top_ne_undefined true v hv)
      | thrown => simp [extractTextSmol, hc, hs, JSValue.isStr]
  · intro hc hs
    cases hcv : chainSmol v with
    | str s => rw [hcv] at hc; simp [JSValue.isStr] at hc
    | _ => simp [extractTextSmol, hcv, hs]

/-- Witness for C8 at the BigInt input, on which `JSON.stringify` throws and
the `String(result)` fallback is taken. -/
theorem C8_total_amended_witness :
    (extractTextSmol (JSValue.bigint 1)).isStr = true ∧
    extractTextSmol (JSValue.bigint 1) = JSValue.str (jsToString (JSValue.bigint 1)) :=
  ⟨(C8_total_amended (JSValue.bigint 1)).2.1 (fun h => JSValue.noConfusion h),
   (C8_total_amended (JSValue.bigint 1)).2.2 rfl rfl⟩

/-- C5: on the disposable SmolLM2 page, `status` only ever holds the four
enum values; `runOnceAndFree` first sets it to `loading`, sets it to
`running` once the pipeline load step succeeds, ends at `idle` exactly when
the load step and the generation both succeed, and ends at `error` exactly
when one of them throws (the swallowed dispose outcome never affects it). -/
theorem C5_status_reflects_runs (st : St0) (loadO : Except JSValue Pipe)
    (genO : Except JSValue JSValue) (dispO : Except JSValue Unit) :
    (runOnceAndFree000 st loadO genO dispO).statusTrace.head? = some Status0.loading ∧
    ((st.pipelineRef.isSome || loadO.isOk) = true →
      Status0.running ∈ (runOnceAndFree000 st loadO genO dispO).statusTrace) ∧
    ((runOnceAndFree000 st loadO genO dispO).st.status = Status0.idle ↔
      ((st.pipelineRef.isSome || loadO.isOk) && genO.isOk) = true) ∧
    ((runOnceAndFree000 st loadO genO dispO).st.status = Status0.error ↔
      ((st.pipelineRef.isSome || loadO.isOk) && genO.isOk) = false) ∧
    (∀ q ∈ (runOnceAndFree000 st loadO genO dispO).statusTrace,
      q = Status0.idle ∨ q = Status0.loading ∨ q = Status0.running ∨ q = Status0.error) := by
  cases hr : st.pipelineRef <;> cases loadO <;> cases genO <;>
    simp_all [runOnceAndFree000, loadPipeline000, disposePipeline000,
      Except.isOk, Except.toBool, Option.isSome] <;>
    (try split <;> simp_all)

/-- Witness for C5 at a concrete state with a cached pipeline and a
successful generation. -/
theorem C5_status_reflects_runs_witness :
    (runOnceAndFree000 ⟨Status0.idle, JSValue.str "", some ⟨7, true⟩⟩
        (Except.ok ⟨7, true⟩) (Except.ok (JSValue.str "out"))
        (Except.ok ())).statusTrace.head? = some Status0.loading ∧
    Status0.running ∈ (runOnceAndFree000 ⟨Status0.idle, JSValue.str "", some ⟨7, true⟩⟩
        (Except.ok ⟨7, true⟩) (Except.ok (JSValue.str "out"))
        (Except.ok ())).statusTrace ∧
    (runOnceAndFree000 ⟨Status0.idle, JSValue.str "", some ⟨7, true⟩⟩
        (Except.ok ⟨7, true⟩) (Except.ok (JSValue.str "out"))
        (Except.ok ())).st.status = Status0.idle := by
  have h := C5_status_reflects_runs ⟨Status0.idle, JSValue.str "", some ⟨7, true⟩⟩
    (Except.ok ⟨7, true⟩) (Except.ok (JSValue.str "out")) (Except.ok ())
  exact ⟨h.1, h.2.1 rfl, h.2.2.1.mpr rfl⟩

/-- C3: on the disposable SmolLM2 page every completed `runOnceAndFree` —
whether the load or the generation returned or threw — leaves the pipeline
ref null, invokes `dispose()` on the previously held pipeline whenever one
was held and exposes the method, and never lets an exception (including a
dispose error) escape; on the min-footprint page, whenever `runOnceAndFree`
enters its try block (a generator was captured), the finally block clears
the generator and the ready flag for every generation outcome. -/
theorem C3_release_after_run (st : St0) (loadO : Except JSValue Pipe)
    (genO : Except JSValue JSValue) (dispO : Except JSValue Unit)
    (st1 : St1) (p : Pipe) (loadO1 : Except JSValue Pipe)
    (genO1 : Except JSValue JSValue) :
    (runOnceAndFree000 st loadO genO dispO).st.pipelineRef = none ∧
    (runOnceAndFree000 st loadO genO dispO).escaped = none ∧
    (∀ q : Pipe, heldPipe st loadO = some q → q.hasDispose = true →
      q.pid ∈ (runOnceAndFree000 st loadO genO dispO).disposedIds) ∧
    (st1.generator = some p →
      (runOnceAndFree001 st1 loadO1 genO1).st.generator = none ∧
      (runOnceAndFree001 st1 loadO1 genO1).st.ready = false ∧
      (runOnceAndFree001 st1 loadO1 genO1).st.generating = false) := by
  refine ⟨?_, ?_, ?_, ?_⟩
  · cases hr : st.pipelineRef <;> cases loadO <;> cases genO <;>
      simp_all [runOnceAndFree000, loadPipeline000, disposePipeline000] <;>
      (try split <;> simp)
  · cases hr : st.pipelineRef <;> cases loadO <;> cases genO <;>
      simp_all [runOnceAndFree000, loadPipeline000, disposePipeline000]
  · intro q hq hd
    cases hr : st.pipelineRef <;> cases loadO <;> cases genO <;>
      simp_all [runOnceAndFree000, loadPipeline000, disposePipeline000,
        heldPipe, Except.toOption, hd]
  · intro h1
    cases genO1 <;> simp [runOnceAndFree001, h1]

/-- Witness for C3 at a concrete run with a failing generation and a
disposable pipeline, and a concrete captured generator on the min-footprint
page. -/
theorem C3_release_after_run_witness :
    (runOnceAndFree000 ⟨Status0.idle, JSValue.str "", none⟩ (Except.ok ⟨4, true⟩)
        (Except.error (JSValue.errObj "gen failed")) (Except.error (JSValue.errObj "dispose failed"))).st.pipelineRef = none ∧
    (runOnceAndFree000 ⟨Status0.idle, JSValue.str "", none⟩ (Except.ok ⟨4, true⟩)
        (Except.error (JSValue.errObj "gen failed")) (Except.error (JSValue.errObj "dispose failed"))).escaped = none ∧
    4 ∈ (runOnceAndFree000 ⟨Status0.idle, JSValue.str "", none⟩ (Except.ok ⟨4, true⟩)
        (Except.error (JSValue.errObj "gen failed")) (Except.error (JSValue.errObj "dispose failed"))).disposedIds ∧
    (runOnceAndFree001 ⟨true, false, false, JSValue.str "", some ⟨5, false⟩⟩
        (Except.ok ⟨6, true⟩) (Except.ok (JSValue.str "t"))).st.generator = none ∧
    (runOnceAndFree001 ⟨true, false, false, JSValue.str "", some ⟨5, false⟩⟩
        (Except.ok ⟨6, true⟩) (Except.ok (JSValue.str "t"))).st.ready = false := by
  have h := C3_release_after_run ⟨Status0.idle, JSValue.str "", none⟩ (Except.ok ⟨4, true⟩)
    (Except.error (JSValue.errObj "gen failed")) (Except.error (JSValue.errObj "dispose failed"))
    ⟨true, false, false, JSValue.str "", some ⟨5, false⟩⟩ ⟨5, false⟩
    (Except.ok ⟨6, true⟩) (Except.ok (JSValue.str "t"))
  exact ⟨h.1, h.2.1, h.2.2.1 ⟨4, true⟩ rfl rfl, (h.2.2.2 rfl).1, (h.2.2.2 rfl).2.1⟩

/-- Inductive invariant of the rendered states of the llama2 page: before the
load settles, `ready` is false and no generator is stored, and the loading
flag is up only while the load is in flight. -/
def InvL (s : StL) : Prop :=
  (s.phase ≠ lPhaseDone → s.ready = false ∧ s.generator = none) ∧
  (s.loading = true → s.phase = lPhaseInFlight)

/-- Every reachable rendered state of the llama2 page satisfies `InvL`. -/
theorem reachL_inv (s : StL) (h : ReachL s) : InvL s := by
  induction h with
  | init =>
    exact ⟨fun _ => ⟨rfl, rfl⟩, fun hl => by simp [initStL] at hl⟩
  | @step t t' hr hstep ih =>
    cases hstep with
    | loadStart hphase =>
      refine ⟨fun _ => ?_, fun _ => rfl⟩
      have hs := ih.1 (by rw [hphase]; simp [lPhaseNotStarted, lPhaseDone])
      exact ⟨hs.1, hs.2⟩
    | loadSettle o hphase =>
      cases o <;>
        exact ⟨fun hd => absurd rfl hd, fun hl => by simp [loadFinishL] at hl⟩
    | genStart p hdis hgen =>
      have hready : t.ready = true := by
        cases hrd : t.ready with
        | true => rfl
        | false => simp [disabledL, hrd] at hdis
      refine ⟨fun hd => ?_, fun hl => ih.2 hl⟩
      exact absurd (ih.1 hd).1 (by rw [hready]; simp)
    | genSettle genO hgen =>
      have h1 : (genFinishL t genO).ready = t.ready ∧
          (genFinishL t genO).generator = t.generator ∧
          (genFinishL t genO).phase = t.phase ∧
          (genFinishL t genO).loading = t.loading := by
        cases genO with
        | ok result =>
          cases hc : chainLlama result <;> simp [genFinishL, hc]
        | error e => simp [genFinishL]
      refine ⟨fun hd => ?_, fun hl => ?_⟩
      · rw [h1.2.2.1] at hd
        rw [h1.1, h1.2.1]
        exact ih.1 hd
      · rw [h1.2.2.2] at hl
        rw [h1.2.2.1]
        exact ih.2 hl

/-- C4: in every reachable UI state of every page in which a model load or a
generation is in flight (the loading/generating flags of the page are up, or the
part_000 status is loading/running), the disabled attribute of the Generate
button is true, so the user action that would start a second call is
unavailable. -/
theorem C4_inflight_button_disabled :
    (∀ s : StL, ReachL s → (s.loading = true ∨ s.generating = true) →
      disabledL s = true) ∧
    (∀ st : St0, (st.status = Status0.loading ∨ st.status = Status0.running) →
      disabled000 st = true) ∧
    (∀ st : StRef, (st.isLoadingModel = true ∨ st.isGenerating = true) →
      disabledRef st = true) ∧
    (∀ st : St1, (st.loadingModel = true ∨ st.generating = true) →
      disabled001 st = true) := by
  refine ⟨?_, ?_, ?_, ?_⟩
  · intro s hreach hin
    cases hin with
    | inr hg => simp [disabledL, hg]
    | inl hl =>
      have hinv := reachL_inv s hreach
      have hphase := hinv.2 hl
      have hready : s.ready = false :=
        (hinv.1 (by rw [hphase]; simp [lPhaseInFlight, lPhaseDone])).1
      simp [disabledL, hready]
  · intro st h
    cases h <;> simp_all [disabled000]
  · intro st h
    cases h <;> simp_all [disabledRef]
  · intro st h
    cases h <;> simp_all [disabled001]

/-- Witness for C4: the state right after the llama2 mount effect starts the
load is reachable, in flight, and has the button disabled; the other pages
at concrete in-flight states likewise. -/
theorem C4_inflight_button_disabled_witness :
    disabledL ⟨false, true, false, JSValue.str "", none, lPhaseInFlight⟩ = true ∧
    disabled000 ⟨Status0.loading, JSValue.str "", none⟩ = true ∧
    disabledRef ⟨true, "Loading model...", JSValue.str "", false, false⟩ = true ∧
    disabled001 ⟨false, true, false, JSValue.str "", none⟩ = true :=
  ⟨C4_inflight_button_disabled.1 _
      (ReachL.step ReachL.init (LStep.loadStart initStL rfl)) (Or.inl rfl),
   C4_inflight_button_disabled.2.1 _ (Or.inl rfl),
   C4_inflight_button_disabled.2.2.1 _ (Or.inl rfl),
   C4_inflight_button_disabled.2.2.2 _ (Or.inl rfl)⟩

/-- A result on which the claimed description of the part_003 `extractText`
and the source disagree: a one-element array whose `generated_text` is a
non-empty array ending in a non-chat-message. -/
def ce3 : JSValue := .arr [.obj [("generated_text", .arr [.num 42])]]

/-- C1 counterexample: on `ce3` the source helper returns
`JSON.stringify` of the `generated_text` array (`[42]`), while the claim
says every remaining case returns `JSON.stringify` of the result. -/
theorem C1_counterexample :
    resShow (extractText3 ce3) = "str:[42]" ∧
    resShow (extractTextClaimed ce3) = "str:[\x7b\"generated_text\":[42]\x7d]" ∧
    extractText3 ce3 ≠ extractTextClaimed ce3 :=
  ⟨rfl, rfl, fun h => absurd (congrArg resShow h) (by decide)⟩

/-- The tail blocks of the source helper and of the amended description
agree on every input. -/
theorem extractText3Rest_eq_amendedTail (r : JSValue) :
    extractText3Rest r = amendedTail r := by
  cases hgt : getGeneratedText r with
  | str s =>
    simp [extractText3Rest, amendedTail, ruleStr, ruleChatOrJson, hgt, JSValue.isStr]
  | arr gs =>
    cases gs with
    | nil =>
      simp [extractText3Rest, amendedTail, ruleStr, ruleChatOrJson, hgt, JSValue.isStr]
    | cons g gt =>
      cases hchat : isChatMessage ((g :: gt).getLast (List.cons_ne_nil g gt)) <;>
        simp [extractText3Rest, amendedTail, ruleStr, ruleChatOrJson, hgt,
          JSValue.isStr, hchat]
  | _ =>
    simp [extractText3Rest, amendedTail, ruleStr, ruleChatOrJson, hgt, JSValue.isStr]

/-- C1 amended: the part_003 `extractText` implements the claimed case
analysis except that a non-empty-array `generated_text` whose last element
is not a chat message yields `JSON.stringify` of that `generated_text` array
itself rather than of the result — on every input the source helper equals
the amended description. -/
theorem C1_extract_amended (result : JSValue) :
    extractText3 result = extractTextAmended result := by
  cases result with
  | arr elems =>
    cases elems with
    | nil =>
      simp only [extractText3, extractTextAmended]
      exact extractText3Rest_eq_amendedTail _
    | cons x rest =>
      cases hgt : getGeneratedText x with
      | str s =>
        simp [extractText3, extractTextAmended, ruleStr, ruleChatOrJson, hgt, JSValue.isStr]
      | arr gs =>
        cases gs with
        | nil =>
          simp [extractText3, extractTextAmended, ruleStr, ruleChatOrJson, hgt,
            JSValue.isStr]
          exact extractText3Rest_eq_amendedTail _
        | cons g gt =>
          cases hchat : isChatMessage ((g :: gt).getLast (List.cons_ne_nil g gt)) <;>
            simp [extractText3, extractTextAmended, ruleStr, ruleChatOrJson, hgt,
              JSValue.isStr, hchat]
      | _ =>
        simp only [extractText3, extractTextAmended, ruleStr, ruleChatOrJson, hgt,
          JSValue.isStr]
        rw [if_neg (by simp)]
        exact extractText3Rest_eq_amendedTail _
  | _ =>
    simp only [extractText3, extractTextAmended]
    exact extractText3Rest_eq_amendedTail _

/-- C2 counterexample: on the DistilGPT-2/Phi-3 pages a rejected generation
whose thrown value is a BigInt makes the `JSON.stringify(e)` call inside
the catch block throw — the exception escapes `onGenerate` and the
output keeps its cleared value instead of showing an error message. -/
theorem C2_counterexample :
    (onGenerateRef ⟨false, "Model ready.", JSValue.str "prior", true, false⟩
        (Except.error (JSValue.bigint 1))).2 = true ∧
    (onGenerateRef ⟨false, "Model ready.", JSValue.str "prior", true, false⟩
        (Except.error (JSValue.bigint 1))).1.output = JSValue.str "" :=
  ⟨rfl, rfl⟩

/-- C2 amended: every page converts a thrown value to a display string and
shows it in the output/status area — unconditionally on the three pages that
use `getErrorMessage` (llama2 generation and load, part_000 generation and
load, part_001 generation and load), and on the DistilGPT-2/Phi-3 pages for
every thrown value whose conversion does not itself throw (`messageOf`
returns a value); for those pages a conversion that throws (a non-Error,
non-string value on which `JSON.stringify` throws) escapes the handler. -/
theorem C2_errors_displayed_amended (e : JSValue) :
    (∀ s : StL, ∀ q : Pipe, s.generator = some q →
      (generateL s (Except.error e)).output =
        JSValue.str ("Generation failed.\n\n" ++ getErrorMessage e)) ∧
    (∀ s : StL, (loadFinishL s (Except.error e)).output =
        JSValue.str ("Failed to load model.\n\n" ++ getErrorMessage e)) ∧
    (∀ st : St0, ∀ loadO dispO, (st.pipelineRef.isSome || loadO.isOk) = true →
      (runOnceAndFree000 st loadO (Except.error e) dispO).st.output =
        JSValue.str ("Generation failed.\n\n" ++ getErrorMessage e) ∧
      (runOnceAndFree000 st loadO (Except.error e) dispO).st.status = Status0.error) ∧
    (∀ st : St0, ∀ genO dispO, st.pipelineRef = none →
      (runOnceAndFree000 st (Except.error e) genO dispO).st.output =
        JSValue.str ("Generation failed.\n\n" ++ getErrorMessage e)) ∧
    (∀ st : St1, ∀ q : Pipe, ∀ loadO, st.generator = some q →
      (runOnceAndFree001 st loadO (Except.error e)).st.output =
        JSValue.str ("Generation failed.\n\n" ++ getErrorMessage e)) ∧
    (∀ st : St1, (loadModel001 st (Except.error e)).output =
        JSValue.str ("Failed to load model.\n\n" ++ getErrorMessage e)) ∧
    (∀ m : JSValue, messageOf e = Except.ok m →
      (∀ st : StRef, st.genSet = true →
        (onGenerateRef st (Except.error e)).1.output =
          JSValue.str ("Error: " ++ jsToString m) ∧
        (onGenerateRef st (Except.error e)).2 = false) ∧
      refInitCatchStatus e = Except.ok ("Error loading model: " ++ jsToString m)) := by
  refine ⟨?_, ?_, ?_, ?_, ?_, ?_, ?_⟩
  · intro s q hq
    simp [generateL, hq, genFinishL]
  · intro s
    simp [loadFinishL]
  · intro st loadO dispO hload
    cases hr : st.pipelineRef <;> cases loadO <;>
      simp_all [runOnceAndFree000, loadPipeline000, disposePipeline000,
        Except.isOk, Except.toBool, Option.isSome] <;>
      (try split <;> simp)
  · intro st genO dispO hr
    simp [runOnceAndFree000, loadPipeline000, disposePipeline000, hr]
  · intro st q loadO hq
    simp [runOnceAndFree001, hq]
  · intro st
    simp [loadModel001]
  · intro m hm
    constructor
    · intro st hg
      simp [onGenerateRef, hg, hm]
    · simp [refInitCatchStatus, hm]

/-- Witness for C2 at a thrown `Error` instance with message `boom` on
concrete page states. -/
theorem C2_errors_displayed_amended_witness :
    (generateL ⟨true, false, false, JSValue.str "", some ⟨2, true⟩, 2⟩
        (Except.error (JSValue.errObj "boom"))).output =
      JSValue.str ("Generation failed.\n\n" ++ getErrorMessage (JSValue.errObj "boom")) ∧
    (runOnceAndFree000 ⟨Status0.idle, JSValue.str "", none⟩ (Except.ok ⟨4, true⟩)
        (Except.error (JSValue.errObj "boom")) (Except.ok ())).st.output =
      JSValue.str ("Generation failed.\n\n" ++ getErrorMessage (JSValue.errObj "boom")) ∧
    (runOnceAndFree001 ⟨true, false, false, JSValue.str "", some ⟨3, false⟩⟩
        (Except.ok ⟨9, true⟩) (Except.error (JSValue.errObj "boom"))).st.output =
      JSValue.str ("Generation failed.\n\n" ++ getErrorMessage (JSValue.errObj "boom")) ∧
    (onGenerateRef ⟨false, "Model ready.", JSValue.str "", true, false⟩
        (Except.error (JSValue.errObj "boom"))).1.output =
      JSValue.str ("Error: " ++ jsToString (JSValue.str "boom")) ∧
    refInitCatchStatus (JSValue.errObj "boom") =
      Except.ok ("Error loading model: " ++ jsToString (JSValue.str "boom")) := by
  have h := C2_errors_displayed_amended (JSValue.errObj "boom")
  exact ⟨h.1 _ ⟨2, true⟩ rfl,
    (h.2.2.1 ⟨Status0.idle, JSValue.str "", none⟩ (Except.ok ⟨4, true⟩) (Except.ok ()) rfl).1,
    h.2.2.2.2.1 _ ⟨3, false⟩ (Except.ok ⟨9, true⟩) rfl,
    ((h.2.2.2.2.2.2 (JSValue.str "boom") rfl).1 _ rfl).1,
    (h.2.2.2.2.2.2 (JSValue.str "boom") rfl).2⟩

/-- The cancellation flag is never set when the synchronous effect body
runs. -/
theorem flagAt_zero (c : Option Nat) : flagAt c 0 = false := by
  cases c with
  | none => rfl
  | some j => simp [flagAt]; omega

/-- C6 counterexample: on the DistilGPT-2/Phi-3 pages, cancelling before the
library import resolves still runs the unguarded `finally`
`setIsLoadingModel(false)` call after the flag is set — the claimed "no setter
runs after cancellation" fails. -/
theorem C6_counterexample :
    settersAfterCancel (some 1) (refLoadLog (some 1) true true) =
      ["setIsLoadingModel"] ∧
    settersAfterCancel (some 1) (refLoadLog (some 1) true true) ≠ [] :=
  ⟨rfl, by decide⟩

/-- C6 amended: the load path of the llama2 page really performs no UI state
update after the cancellation flag is set (every setter is guarded); on the
DistilGPT-2 and Phi-3 pages the only setters that can run after cancellation
are the unguarded `finally` loading-flag reset and the unguarded catch
status message; the min-footprint SmolLM2 page checks no flag at all, and
some setter always runs after a cancellation that precedes its awaited
calls. -/
theorem C6_cancellation_amended (c : Option Nat) (importOk pipeOk : Bool) :
    settersAfterCancel c (llamaLoadLog c importOk pipeOk) = [] ∧
    (∀ x ∈ settersAfterCancel c (refLoadLog c importOk pipeOk),
      x = "setIsLoadingModel" ∨ x = "setStatus") ∧
    settersAfterCancel (some 1) (minLoadLog importOk pipeOk) ≠ [] := by
  refine ⟨?_, ?_, ?_⟩
  · cases importOk <;> cases pipeOk <;>
      cases h1 : flagAt c 1 <;> cases h2 : flagAt c 2 <;>
      simp [settersAfterCancel, llamaLoadLog, h1, h2, flagAt_zero]
  · intro x hx
    cases importOk <;> cases pipeOk <;>
      (revert hx) <;>
      cases h1 : flagAt c 1 <;> cases h2 : flagAt c 2 <;>
      simp [settersAfterCancel, refLoadLog, h1, h2, flagAt_zero] <;>
      (intro hx; try exact hx) <;> (try tauto)
  · cases importOk <;> cases pipeOk <;>
      simp [settersAfterCancel, minLoadLog, flagAt]

/-- Witness for C6 at a cancellation right before the import resolves. -/
theorem C6_cancellation_amended_witness :
    settersAfterCancel (some 1) (llamaLoadLog (some 1) true true) = [] ∧
    ("setIsLoadingModel" = "setIsLoadingModel" ∨ "setIsLoadingModel" = "setStatus") ∧
    settersAfterCancel (some 1) (minLoadLog true true) ≠ [] := by
  have h := C6_cancellation_amended (some 1) true true
  exact ⟨h.1, h.2.1 "setIsLoadingModel" (by decide), h.2.2⟩
